import Mathlib

/-!
Shallow embedding of the kriya-backend authentication gateway
(`src/app/crud.py`, `src/app/routers/auth.py`, `src/app/routers/session.py`,
`src/app/services/plane_client.py`).

Modelling conventions:
* UUIDs are modelled as `Nat`; timestamps are `Nat` (seconds).
* The SQLAlchemy store is a `List User`; `query(...).first()` is `List.find?`;
  a mutate-then-commit on a row is a `List.map` that rewrites the row in place.
* `jwt.encode`/`jwt.decode` are modelled symbolically: a token is either a
  payload signed with a key, or malformed bytes.  `jwt.decode` succeeds exactly
  when the key matches the configured secret and the `exp` claim has not
  elapsed (PyJWT raises `ExpiredSignatureError` when `exp <= now`), and both
  `ExpiredSignatureError` and `InvalidTokenError` are caught and turned into
  `None` by `decode_jwt_token`.
* Python falsiness of an optional string (`if kriya_user.plane_api_token:`)
  is `truthy`: present and non-empty.
* HTTP calls to the Plane backend are an oracle `PlaneEnv`; the number of
  probe / handshake / commit operations a code path performs is recorded in
  `PlaneCounts`.
-/

namespace Kriya

/-- `app.models.User`: one row of the `users` table (audit-only columns
`created_at` / `updated_at` and the unused `Token` audit table are omitted;
no claim mentions them). -/
structure User where
  id : Nat
  phone_number : String
  first_name : String
  last_name : String
  email : Option String
  token_version : Nat
  plane_user_id : Option String
  plane_api_token : Option String
  plane_email : Option String
  plane_workspace_slug : Option String
  plane_project_id : Option String
deriving DecidableEq, Repr

/-- `crud.get_user_by_phone`: first row whose `phone_number` matches. -/
def get_user_by_phone (db : List User) (phone : String) : Option User :=
  db.find? (fun u => u.phone_number == phone)

/-- `crud.get_user_by_id`: first row whose `id` matches. -/
def get_user_by_id (db : List User) (uid : Nat) : Option User :=
  db.find? (fun u => u.id == uid)

/-- The claim set of a JWT minted or checked by `crud.py`.  `user_id` and
`token_version` are optional because `get_user_from_jwt` reads them with
`payload.get(...)`, which tolerates absence. -/
structure JwtPayload where
  user_id : Option Nat
  phone_number : String
  token_version : Option Nat
  exp : Nat
  iat : Nat
  iss : String
deriving DecidableEq, Repr

/-- A wire token: either a payload signed with some key, or malformed bytes
(anything `jwt.decode` rejects as not being a well-formed JWT). -/
inductive JwtToken where
  | signed (payload : JwtPayload) (key : String)
  | malformed (raw : String)
deriving DecidableEq, Repr

/-- `crud.generate_jwt_token`: embeds `user_id`, `phone_number`, the user's
current `token_version`, `exp = now + TOKEN_EXPIRY_HOURS` (in seconds),
`iat = now` and the fixed issuer, then signs with the configured secret. -/
def generate_jwt_token (user : User) (now : Nat) (secret : String)
    (expiry_hours : Nat) : JwtToken × Nat :=
  let expires_at := now + expiry_hours * 3600
  (JwtToken.signed
    { user_id := some user.id
      phone_number := user.phone_number
      token_version := some user.token_version
      exp := expires_at
      iat := now
      iss := "kriya-auth" } secret,
   expires_at)

/-- `crud.decode_jwt_token`: `jwt.decode` with signature and expiry
verification; `ExpiredSignatureError` and `InvalidTokenError` are both caught
and collapsed to `none`. -/
def decode_jwt_token (token : JwtToken) (now : Nat) (secret : String) :
    Option JwtPayload :=
  match token with
  | .malformed _ => none
  | .signed payload key =>
    if key ≠ secret then none
    else if payload.exp ≤ now then none
    else some payload

/-- `crud.validate_token_version`: the revocation check. -/
def validate_token_version (user : User) (token_version : Nat) : Bool :=
  user.token_version == token_version

/-- `crud.logout_user`: increments the user's `token_version` and commits. -/
def logout_user (db : List User) (uid : Nat) : List User :=
  db.map (fun u =>
    if u.id == uid then { u with token_version := u.token_version + 1 } else u)

/-- `crud.get_user_from_jwt`: decode, read `user_id` (reject falsy/absent),
read `token_version` defaulting to `0`, look the user up, and apply the
revocation check. -/
def get_user_from_jwt (db : List User) (token : JwtToken) (now : Nat)
    (secret : String) : Option User :=
  match decode_jwt_token token now secret with
  | none => none
  | some payload =>
    match payload.user_id with
    | none => none
    | some uid =>
      let token_version := payload.token_version.getD 0
      match get_user_by_id db uid with
      | none => none
      | some user =>
        if validate_token_version user token_version then some user else none

/-- Python truthiness of an optional string column: present and non-empty. -/
def truthy : Option String → Bool
  | none => false
  | some s => !s.isEmpty

/-- Oracle for the Plane backend's visible behaviour during one
`get_or_create_user_token` code path, plus the two configuration defaults the
path reads (`settings.PLANE_WORKSPACE_SLUG`, `settings.PLANE_PROJECT_ID`):
* `validate_ok tok` — whether the cheap probe `GET /api/users/me/` with
  `X-Api-Key: tok` returns 200 (`_validate_api_token`);
* `auth_ok` — whether `POST /api/auth/kriya/token/` returns 200
  (`authenticate_user_with_plane`; any non-200 or network error raises);
* `user_info` — result of `GET /api/users/me/` on the authenticated session
  (`get_user_info`): `(id, email)` on success, an error message on failure;
* `token_result` — result of `POST /api/users/me/api-tokens/`
  (`create_api_token_for_user`): the `token` field of the response on
  success, an error message on failure. -/
structure PlaneEnv where
  validate_ok : String → Bool
  auth_ok : Bool
  user_info : Except String (String × String)
  token_result : Except String String
  workspace_slug : String
  project_id : String

/-- How many Plane-side probe calls (`_validate_api_token`), full
authentication handshakes (`authenticate_user_with_plane`), and database
commits a code path performed. -/
structure PlaneCounts where
  probes : Nat
  handshakes : Nat
  commits : Nat
deriving DecidableEq, Repr

/-- `PlaneClient._validate_api_token`: the cheap 5-second probe. -/
def validate_api_token (env : PlaneEnv) (api_token : String) : Bool :=
  env.validate_ok api_token

/-- The plane fields `get_or_create_user_token` writes onto the user row
before its single `db.commit()`:  `plane_user_id` and `plane_api_token` are
set unconditionally, `plane_email` falls back to
`{phone without +}@kriya.local` when Plane returned an empty email, and
workspace/project default from configuration only when currently falsy. -/
def apply_plane_fields (env : PlaneEnv) (plane_user_id api_token plane_email :
    String) (u : User) : User :=
  { u with
    plane_user_id := some plane_user_id
    plane_api_token := some api_token
    plane_email := some (if plane_email.isEmpty then
      (u.phone_number.replace "+" "") ++ "@kriya.local" else plane_email)
    plane_workspace_slug := if truthy u.plane_workspace_slug then
      u.plane_workspace_slug else some env.workspace_slug
    plane_project_id := if truthy u.plane_project_id then
      u.plane_project_id else some env.project_id }

/-- The acquisition path of `PlaneClient.get_or_create_user_token` (steps
2–5 of the docstring): mint a Kriya JWT, exchange it with Plane (raises on
failure), fetch the Plane identity (failure caught, defaults to empty
strings), create an API token (failure or empty token raises), then write the
bundle onto the user row and commit.  `probes` records how many probe calls
happened before this path was entered. -/
def acquire_plane_token (env : PlaneEnv) (db : List User) (kriya_user : User)
    (probes : Nat) : Except String (List User × String × String) × PlaneCounts :=
  if !env.auth_ok then
    (.error "Failed to authenticate with Plane", ⟨probes, 1, 0⟩)
  else
    let ids := match env.user_info with
      | .ok info => info
      | .error _ => ("", "")
    match env.token_result with
    | .error msg =>
      (.error ("Failed to create API token. User may need to authenticate via dashboard first: " ++ msg),
       ⟨probes, 1, 0⟩)
    | .ok api_token =>
      if api_token.isEmpty then
        (.error "Failed to create API token. User may need to authenticate via dashboard first: API token not returned from Plane",
         ⟨probes, 1, 0⟩)
      else
        let db' := db.map (fun u =>
          if u.id == kriya_user.id then
            apply_plane_fields env ids.1 api_token ids.2 u else u)
        (.ok (db', ids.1, api_token), ⟨probes, 1, 1⟩)

/-- `PlaneClient.get_or_create_user_token`: if the user row holds a (truthy)
cached API token and the cheap probe succeeds, return the cached bundle
immediately; otherwise run the full acquisition path.  The result is the
(possibly updated) store and the `(plane_user_id, api_token)` pair, or the
raised error; `PlaneCounts` records the I/O the path performed. -/
def get_or_create_user_token (env : PlaneEnv) (db : List User)
    (kriya_user : User) :
    Except String (List User × String × String) × PlaneCounts :=
  if truthy kriya_user.plane_api_token then
    let cached := kriya_user.plane_api_token.getD ""
    if validate_api_token env cached then
      (.ok (db, kriya_user.plane_user_id.getD "", cached), ⟨1, 0, 0⟩)
    else
      acquire_plane_token env db kriya_user 1
  else
    acquire_plane_token env db kriya_user 0

/-- Two concurrent `get_or_create_user_token` requests for the same user,
scheduled so that both read the store before either commits (the code has no
in-flight-acquisition lock, and §5's model suspends at every network call, so
this interleaving is reachable).  Each call runs against the initial store
snapshot; each `PlaneEnv` is that call's view of the Plane backend. -/
def concurrent_get_or_create (env1 env2 : PlaneEnv) (db : List User)
    (kriya_user : User) :
    (Except String (List User × String × String) × PlaneCounts) ×
    (Except String (List User × String × String) × PlaneCounts) :=
  (get_or_create_user_token env1 db kriya_user,
   get_or_create_user_token env2 db kriya_user)

/-- `schemas.UserRegisterRequest` after pydantic validation passed. -/
structure RegisterRequest where
  phone_number : String
  first_name : String
  last_name : Option String
  email : Option String
deriving DecidableEq, Repr

/-- `crud.update_user`: overwrite the profile fields of an existing row
(`last_name` falls back to the empty string). -/
def update_user (u : User) (data : RegisterRequest) : User :=
  { u with
    first_name := data.first_name
    last_name := data.last_name.getD ""
    email := data.email }

/-- `crud.update_user`'s commit: rewrite the matching row in the store. -/
def update_user_db (db : List User) (uid : Nat) (data : RegisterRequest) :
    List User :=
  db.map (fun u => if u.id == uid then update_user u data else u)

/-- `crud.create_user`: a fresh row with `token_version = 0` and no cached
Plane bundle; `fresh` is the generated UUID. -/
def create_user (data : RegisterRequest) (fresh : Nat) : User :=
  { id := fresh
    phone_number := data.phone_number
    first_name := data.first_name
    last_name := data.last_name.getD ""
    email := data.email
    token_version := 0
    plane_user_id := none
    plane_api_token := none
    plane_email := none
    plane_workspace_slug := none
    plane_project_id := none }

/-- The create-or-update head of `routers.auth.register_user`: look the phone
number up; update the existing row (login) or append a fresh one
(registration).  Returns the acted-on user, the updated store, and the
response message. -/
def register_lookup (db : List User) (data : RegisterRequest) (fresh : Nat) :
    User × List User × String :=
  match get_user_by_phone db data.phone_number with
  | some existing =>
    (update_user existing data, update_user_db db existing.id data,
     "Login successful")
  | none =>
    let u := create_user data fresh
    (u, db ++ [u], "Registration successful")

/-- The in-memory session store `routers.auth.sessions` shared with
`routers.session`: a map from opaque session id to user id. -/
abbrev SessionStore := List (String × Nat)

/-- What `POST /api/auth/register` did: the response fields a client sees and
the store / session-registry state it left behind. -/
structure RegisterOutcome where
  success : Bool
  message : String
  user_id : Nat
  db : List User
  sessions : SessionStore
  cookie_set : Bool
  redirect_path : Option String
deriving DecidableEq, Repr

/-- `routers.auth.register_user`: create or update the user, mint a token,
best-effort run `get_or_create_user_token` (its exception is caught: on
failure the store keeps the pre-acquisition state), best-effort exchange the
token with Plane for a redirect path (`plane_auth`; non-200 and exceptions
both leave no redirect), then create a session entry and set the httpOnly
cookie.  `fresh` is the UUID for a new user, `session_id` the generated
session identifier. -/
def register_user (env : PlaneEnv) (db : List User) (sessions : SessionStore)
    (data : RegisterRequest) (fresh : Nat) (session_id : String)
    (plane_auth : Except String String) : RegisterOutcome :=
  let head := register_lookup db data fresh
  let user := head.1
  let db1 := head.2.1
  let message := head.2.2
  let db2 := match (get_or_create_user_token env db1 user).1 with
    | .ok res => res.1
    | .error _ => db1
  let redirect := match plane_auth with
    | .ok path => some path
    | .error _ => none
  { success := true
    message := message
    user_id := user.id
    db := db2
    sessions := sessions ++ [(session_id, user.id)]
    cookie_set := true
    redirect_path := redirect }

/-- Lookup in the shared session map (`session_id in sessions` /
`sessions.get(session_id)`). -/
def sessions_lookup (sessions : SessionStore) (sid : String) : Option Nat :=
  (sessions.find? (fun p => p.1 == sid)).map (fun p => p.2)

/-- `routers.session.get_current_user_from_session`: 401 when the cookie is
missing, falsy, or not in the map; then re-fetch the live user row, 401 when
absent. -/
def get_current_user_from_session (sessions : SessionStore) (db : List User)
    (session_id : Option String) : Except Nat User :=
  match session_id with
  | none => .error 401
  | some sid =>
    if sid.isEmpty then .error 401
    else
      match sessions_lookup sessions sid with
      | none => .error 401
      | some uid =>
        match get_user_by_id db uid with
        | none => .error 401
        | some user => .ok user

/-- `routers.session.destroy_session` (`POST /api/session/logout`): the
`Depends(get_current_user_from_session)` guard runs first and raises 401 for
an unauthenticated request; only then does the handler body delete the
mapping (guarded by an `in sessions` membership test) and clear the cookie.
Returns the new session store on success, the HTTP status on failure. -/
def destroy_session (sessions : SessionStore) (db : List User)
    (session_id : Option String) : Except Nat SessionStore :=
  match get_current_user_from_session sessions db session_id with
  | .error code => .error code
  | .ok _ =>
    match session_id with
    | none => .ok sessions
    | some sid =>
      if (sessions_lookup sessions sid).isSome then
        .ok (sessions.filter (fun p => p.1 ≠ sid))
      else
        .ok sessions

/-- A row rewrite touches neither the identity nor the profile columns: it
may only change `token_version` or the cached Plane bundle.  Every store
update performed inside `get_or_create_user_token` has this shape. -/
def profile_invariant (f : User → User) : Prop :=
  ∀ w : User, (f w).id = w.id ∧ (f w).phone_number = w.phone_number ∧
    (f w).first_name = w.first_name ∧ (f w).last_name = w.last_name ∧
    (f w).email = w.email

/-- A concrete registration request used by the witness theorems. -/
def adaRequest : RegisterRequest :=
  { phone_number := "+15550001111"
    first_name := "Ada"
    last_name := some "Byron"
    email := some "ada@example.com" }

/-- A concrete user row used by the witness theorems. -/
def adaUser : User :=
  { id := 1
    phone_number := "+15550001111"
    first_name := "Ada"
    last_name := "Lovelace"
    email := some "ada@example.com"
    token_version := 0
    plane_user_id := none
    plane_api_token := none
    plane_email := none
    plane_workspace_slug := none
    plane_project_id := none }

/-- A signed payload for `adaUser` whose expiry is the fixed time 10. -/
def shortPayload : JwtPayload :=
  { user_id := some 1
    phone_number := "+15550001111"
    token_version := some 0
    exp := 10
    iat := 0
    iss := "kriya-auth" }

/-- A validly shaped payload for `adaUser` that carries no `token_version`
claim. -/
def noVersionPayload : JwtPayload :=
  { user_id := some 1
    phone_number := "+15550001111"
    token_version := none
    exp := 1000
    iat := 0
    iss := "kriya-auth" }

/-- A Plane backend view where every call succeeds and the token endpoint
issues `tok`. -/
def happyPlaneEnv (tok : String) : PlaneEnv :=
  { validate_ok := fun _ => true
    auth_ok := true
    user_info := .ok ("plane-user-7", "ada@plane.local")
    token_result := .ok tok
    workspace_slug := "kriya-ws"
    project_id := "kriya-proj" }

/-- A Plane backend view where the token-exchange handshake fails. -/
def downPlaneEnv : PlaneEnv :=
  { validate_ok := fun _ => false
    auth_ok := false
    user_info := .error "down"
    token_result := .error "down"
    workspace_slug := "kriya-ws"
    project_id := "kriya-proj" }

/-- Mapping a row-rewriting function that does not change which rows match a
predicate commutes with `List.find?`. -/
theorem find?_map_of_pred {α : Type} (p : α → Bool) (f : α → α) (l : List α)
    (hf : ∀ a, p (f a) = p a) :
    (l.map f).find? p = (l.find? p).map f := by
  rw [List.find?_map]
  have hpf : (p ∘ f) = p := funext hf
  rw [hpf]

/-- Looking a user up by id after `logout_user` finds the same row with its
`token_version` incremented. -/
theorem get_user_by_id_logout (db : List User) (uid : Nat) (u : User)
    (hu : get_user_by_id db uid = some u) :
    get_user_by_id (logout_user db uid) uid =
      some { u with token_version := u.token_version + 1 } := by
  unfold get_user_by_id logout_user at *
  rw [find?_map_of_pred]
  · have hid : u.id = uid := by simpa using List.find?_some hu
    rw [hu]
    simp [hid]
  · intro a
    by_cases h : a.id = uid <;> simp [h]

/-- C1: for every user in the store and every bearer token previously minted
for that user (at any time, embedding any past `token_version` not above the
user's current one), after `logout_user` increments the user's
`token_version`, `get_user_from_jwt` resolves that token to `none` — also
when the token's expiry has not elapsed. -/
theorem C1_revoke_all_invalidates_prior_tokens (db : List User)
    (u past : User) (t0 now : Nat) (secret : String) (hours : Nat)
    (hu : get_user_by_id db u.id = some u)
    (hid : past.id = u.id)
    (hver : past.token_version ≤ u.token_version) :
    get_user_from_jwt (logout_user db u.id)
      (generate_jwt_token past t0 secret hours).1 now secret = none := by
  by_cases hexp : t0 + hours * 3600 ≤ now
  · simp [get_user_from_jwt, generate_jwt_token, decode_jwt_token, hexp]
  · have hlook := get_user_by_id_logout db u.id u hu
    simp [get_user_from_jwt, generate_jwt_token, decode_jwt_token, hexp,
          hid, hlook, validate_token_version]
    omega

/-- Witness for C1 at a concrete store: Ada's freshly minted token stops
resolving after logout, well before its expiry. -/
theorem C1_witness :
    get_user_from_jwt (logout_user [adaUser] adaUser.id)
      (generate_jwt_token adaUser 0 "secret" 24).1 500 "secret" = none :=
  C1_revoke_all_invalidates_prior_tokens [adaUser] adaUser adaUser 0 500
    "secret" 24 (by decide) rfl (by decide)

/-- C2: for every user present in the store, resolving a token immediately
after minting it (same store, same secret, before the embedded expiry)
returns that same user. -/
theorem C2_mint_resolve_roundtrip (db : List User) (u : User) (t0 now : Nat)
    (secret : String) (hours : Nat)
    (hu : get_user_by_id db u.id = some u)
    (hexp : now < t0 + hours * 3600) :
    get_user_from_jwt db (generate_jwt_token u t0 secret hours).1 now secret =
      some u := by
  have hexp' : ¬ (t0 + hours * 3600 ≤ now) := by omega
  simp [get_user_from_jwt, generate_jwt_token, decode_jwt_token, hexp', hu,
        validate_token_version]

/-- Witness for C2: Ada's token minted at time 0 resolves back to Ada at
time 500. -/
theorem C2_witness :
    get_user_from_jwt [adaUser] (generate_jwt_token adaUser 0 "secret" 24).1
      500 "secret" = some adaUser :=
  C2_mint_resolve_roundtrip [adaUser] adaUser 0 500 "secret" 24 (by decide)
    (by decide)

/-- C6: `decode_jwt_token` yields the same uniform `none` on malformed input,
on a signature made with the wrong key, and on an elapsed expiry; being a
total function into `Option`, it raises nothing. -/
theorem C6_verify_uniform_invalid (now : Nat) (secret : String) :
    (∀ raw, decode_jwt_token (.malformed raw) now secret = none) ∧
    (∀ p key, key ≠ secret →
      decode_jwt_token (.signed p key) now secret = none) ∧
    (∀ p : JwtPayload, p.exp ≤ now →
      decode_jwt_token (.signed p secret) now secret = none) := by
  refine ⟨fun raw => rfl, fun p key hk => ?_, fun p hexp => ?_⟩
  · simp [decode_jwt_token, hk]
  · simp [decode_jwt_token, hexp]

/-- Witness for C6: the three failure causes at concrete inputs, all `none`. -/
theorem C6_witness :
    decode_jwt_token (.malformed "not-a-jwt") 0 "secret" = none ∧
    decode_jwt_token (.signed shortPayload "wrong-key") 0 "secret" = none ∧
    decode_jwt_token (.signed shortPayload "secret") 99 "secret" = none :=
  ⟨(C6_verify_uniform_invalid 0 "secret").1 "not-a-jwt",
   (C6_verify_uniform_invalid 0 "secret").2.1 shortPayload "wrong-key"
     (by decide),
   (C6_verify_uniform_invalid 99 "secret").2.2 shortPayload (by decide)⟩

/-- C7: once a token's embedded expiry has elapsed, `get_user_from_jwt`
returns `none` against every store — in particular also when the embedded
`token_version` equals the looked-up user's current one. -/
theorem C7_expired_token_unauthorized (db : List User) (p : JwtPayload)
    (key : String) (now : Nat) (secret : String)
    (hexp : p.exp ≤ now) :
    get_user_from_jwt db (.signed p key) now secret = none := by
  by_cases hk : key = secret
  · subst hk
    simp [get_user_from_jwt, decode_jwt_token, hexp]
  · simp [get_user_from_jwt, decode_jwt_token, hk]

/-- Witness for C7: an expired token for Ada whose `token_version` matches
her current counter still resolves to `none`. -/
theorem C7_witness :
    get_user_from_jwt [adaUser] (.signed shortPayload "secret") 99 "secret" =
      none :=
  C7_expired_token_unauthorized [adaUser] shortPayload "secret" 99 "secret"
    (by decide)

/-- C10: a validly signed, unexpired token that carries a `user_id` but no
`token_version` claim is treated as `token_version 0`: it resolves to the
stored user exactly when that user's current revocation counter is `0`, and
to `none` otherwise. -/
theorem C10_missing_version_defaults_to_zero (db : List User)
    (p : JwtPayload) (now : Nat) (secret : String) (uid : Nat) (u : User)
    (hexp : now < p.exp)
    (huid : p.user_id = some uid)
    (hver : p.token_version = none)
    (hu : get_user_by_id db uid = some u) :
    get_user_from_jwt db (.signed p secret) now secret =
      (if u.token_version = 0 then some u else none) := by
  have hexp' : ¬ (p.exp ≤ now) := by omega
  by_cases h0 : u.token_version = 0 <;>
    simp [get_user_from_jwt, decode_jwt_token, hexp', huid, hver, hu,
          validate_token_version, h0]

/-- The identity rewrite trivially preserves identity and profile columns. -/
theorem profile_invariant_id : profile_invariant (fun w => w) :=
  fun _ => ⟨rfl, rfl, rfl, rfl, rfl⟩

/-- The row rewrite performed by the acquisition path's commit only touches
the cached Plane bundle. -/
theorem profile_invariant_plane (env : PlaneEnv) (pid tok em : String)
    (uid : Nat) :
    profile_invariant (fun w =>
      if w.id == uid then apply_plane_fields env pid tok em w else w) := by
  intro w
  by_cases h : w.id = uid <;> simp [apply_plane_fields, h]

/-- Whatever store a successful acquisition path returns is the input store
with a profile-preserving row rewrite applied. -/
theorem acquire_db_shape (env : PlaneEnv) (db : List User) (u : User)
    (probes : Nat) (res : List User × String × String)
    (h : (acquire_plane_token env db u probes).1 = .ok res) :
    ∃ f, profile_invariant f ∧ res.1 = db.map f := by
  obtain ⟨res_db, res_pid, res_tok⟩ := res
  unfold acquire_plane_token at h
  split at h
  · simp at h
  · split at h
    all_goals
      split at h
      · simp at h
      · split at h
        · simp at h
        · simp only [Except.ok.injEq, Prod.mk.injEq] at h
          exact ⟨_, profile_invariant_plane env _ _ _ u.id, h.1.symm⟩

/-- Whatever store a successful `get_or_create_user_token` returns is the
input store with a profile-preserving row rewrite applied (the cached fast
path returns it unchanged). -/
theorem get_or_create_db_shape (env : PlaneEnv) (db : List User) (u : User)
    (res : List User × String × String)
    (h : (get_or_create_user_token env db u).1 = .ok res) :
    ∃ f, profile_invariant f ∧ res.1 = db.map f := by
  unfold get_or_create_user_token at h
  split at h
  · simp only [] at h
    split at h
    · simp at h
      exact ⟨fun w => w, profile_invariant_id, by rw [← h]; simp⟩
    · exact acquire_db_shape env db u 1 res h
  · exact acquire_db_shape env db u 0 res h

/-- Looking a phone number up commutes with a phone-preserving row rewrite. -/
theorem get_user_by_phone_map (db : List User) (p : String) (f : User → User)
    (hf : ∀ a, (f a).phone_number = a.phone_number) :
    get_user_by_phone (db.map f) p = (get_user_by_phone db p).map f := by
  unfold get_user_by_phone
  exact find?_map_of_pred _ f db (fun a => by rw [hf a])

/-- Witness for C10: the version-less token resolves for Ada at counter 0
and stops resolving once her counter is 1. -/
theorem C10_witness :
    get_user_from_jwt [adaUser] (.signed noVersionPayload "secret") 5
      "secret" = some adaUser ∧
    get_user_from_jwt [{ adaUser with token_version := 1 }]
      (.signed noVersionPayload "secret") 5 "secret" = none := by
  constructor
  · have h := C10_missing_version_defaults_to_zero [adaUser] noVersionPayload
      5 "secret" 1 adaUser (by decide) rfl rfl (by decide)
    simpa using h
  · have h := C10_missing_version_defaults_to_zero
      [{ adaUser with token_version := 1 }] noVersionPayload 5 "secret" 1
      { adaUser with token_version := 1 } (by decide) rfl rfl (by decide)
    simpa using h

/-- C4: when the user row holds a cached API token and the cheap probe
succeeds, `get_or_create_user_token` returns the cached
`(plane_user_id, api_token)` bundle with the store unchanged, after exactly
one probe, zero handshakes and zero commits. -/
theorem C4_cached_valid_bundle_fast_path (env : PlaneEnv) (db : List User)
    (u : User) (cached : String)
    (hc : u.plane_api_token = some cached)
    (hne : cached.isEmpty = false)
    (hval : env.validate_ok cached = true) :
    get_or_create_user_token env db u =
      (.ok (db, u.plane_user_id.getD "", cached),
       { probes := 1, handshakes := 0, commits := 0 }) := by
  simp [get_or_create_user_token, truthy, validate_api_token, hc, hne, hval]

/-- Witness for C4: Ada with a cached, probe-valid token gets it straight
back; the store is untouched and no handshake or commit happened. -/
theorem C4_witness :
    get_or_create_user_token (happyPlaneEnv "fresh-tok")
      [{ adaUser with plane_api_token := some "cached-tok" }]
      { adaUser with plane_api_token := some "cached-tok" } =
      (.ok ([{ adaUser with plane_api_token := some "cached-tok" }], "",
        "cached-tok"),
       { probes := 1, handshakes := 0, commits := 0 }) :=
  C4_cached_valid_bundle_fast_path (happyPlaneEnv "fresh-tok")
    [{ adaUser with plane_api_token := some "cached-tok" }]
    { adaUser with plane_api_token := some "cached-tok" } "cached-tok"
    rfl rfl rfl

/-- C3 is violated by the code: `get_or_create_user_token` has no in-flight
acquisition lock, so in the schedule where two concurrent calls for a user
with no cached credential both read the store before either commits, each
call performs its own full handshake — two in total — and the callers
receive different credentials (here `token-A` and `token-B`). -/
theorem C3_no_dedup_two_handshakes :
    (concurrent_get_or_create (happyPlaneEnv "token-A")
        (happyPlaneEnv "token-B") [adaUser] adaUser).1.2.handshakes +
      (concurrent_get_or_create (happyPlaneEnv "token-A")
        (happyPlaneEnv "token-B") [adaUser] adaUser).2.2.handshakes = 2 ∧
    (concurrent_get_or_create (happyPlaneEnv "token-A")
        (happyPlaneEnv "token-B") [adaUser] adaUser).1.1 =
      .ok ([apply_plane_fields (happyPlaneEnv "token-A") "plane-user-7"
        "token-A" "ada@plane.local" adaUser], "plane-user-7", "token-A") ∧
    (concurrent_get_or_create (happyPlaneEnv "token-A")
        (happyPlaneEnv "token-B") [adaUser] adaUser).2.1 =
      .ok ([apply_plane_fields (happyPlaneEnv "token-B") "plane-user-7"
        "token-B" "ada@plane.local" adaUser], "plane-user-7", "token-B") :=
  ⟨rfl, rfl, rfl⟩

/-- C5: when the downstream credential acquisition made by the register
endpoint fails (whatever the cause the oracle reports), registration still
succeeds: the response is the create-or-update outcome, the store keeps the
created/updated user, the session entry is added and the cookie is set. -/
theorem C5_downstream_failure_not_fatal (env : PlaneEnv) (db : List User)
    (sessions : SessionStore) (data : RegisterRequest) (fresh : Nat)
    (session_id : String) (plane_auth : Except String String) (e : String)
    (hfail : (get_or_create_user_token env (register_lookup db data fresh).2.1
        (register_lookup db data fresh).1).1 = .error e) :
    register_user env db sessions data fresh session_id plane_auth =
      { success := true
        message := (register_lookup db data fresh).2.2
        user_id := (register_lookup db data fresh).1.id
        db := (register_lookup db data fresh).2.1
        sessions := sessions ++ [(session_id, (register_lookup db data fresh).1.id)]
        cookie_set := true
        redirect_path := match plane_auth with
          | .ok path => some path
          | .error _ => none } := by
  simp [register_user, hfail]

/-- Witness for C5: with the Plane backend down, registering Ada on an empty
store still succeeds, creates her row, and sets the session. -/
theorem C5_witness :
    register_user downPlaneEnv [] [] adaRequest 1 "sess-1" (.error "down") =
      { success := true
        message := (register_lookup [] adaRequest 1).2.2
        user_id := (register_lookup [] adaRequest 1).1.id
        db := (register_lookup [] adaRequest 1).2.1
        sessions := [("sess-1", (register_lookup [] adaRequest 1).1.id)]
        cookie_set := true
        redirect_path := none } :=
  C5_downstream_failure_not_fatal downPlaneEnv [] [] adaRequest 1 "sess-1"
    (.error "down") "Failed to authenticate with Plane" rfl

/-- C8: registering a second time with an already-registered phone number
answers "Login successful", acts on the existing user's id, leaves the store
the same size (no second user), and the row found under that phone number
afterwards carries the request's profile fields. -/
theorem C8_reregister_updates_in_place (env : PlaneEnv) (db : List User)
    (sessions : SessionStore) (data : RegisterRequest) (fresh : Nat)
    (session_id : String) (plane_auth : Except String String) (u : User)
    (hu : get_user_by_phone db data.phone_number = some u) :
    (register_user env db sessions data fresh session_id plane_auth).message =
      "Login successful" ∧
    (register_user env db sessions data fresh session_id plane_auth).user_id =
      u.id ∧
    (register_user env db sessions data fresh session_id plane_auth).db.length =
      db.length ∧
    ∃ v, get_user_by_phone
        (register_user env db sessions data fresh session_id plane_auth).db
        data.phone_number = some v ∧
      v.id = u.id ∧ v.first_name = data.first_name ∧
      v.last_name = data.last_name.getD "" ∧ v.email = data.email := by
  have hhead : register_lookup db data fresh =
      (update_user u data, update_user_db db u.id data, "Login successful") := by
    unfold register_lookup
    rw [hu]
  have hmsg : (register_user env db sessions data fresh session_id
      plane_auth).message = "Login successful" := by
    simp only [register_user, hhead]
  have huid : (register_user env db sessions data fresh session_id
      plane_auth).user_id = (update_user u data).id := by
    simp only [register_user, hhead]
  have hdbeq : (register_user env db sessions data fresh session_id
      plane_auth).db =
      (match (get_or_create_user_token env (update_user_db db u.id data)
          (update_user u data)).1 with
        | .ok res => res.1
        | .error _ => update_user_db db u.id data) := by
    simp only [register_user, hhead]
  obtain ⟨f, hf, hdb2⟩ :
      ∃ f, profile_invariant f ∧
        (register_user env db sessions data fresh session_id plane_auth).db =
          (update_user_db db u.id data).map f := by
    rw [hdbeq]
    cases hres : (get_or_create_user_token env (update_user_db db u.id data)
        (update_user u data)).1 with
    | error e => exact ⟨fun w => w, profile_invariant_id, by simp⟩
    | ok res =>
      obtain ⟨f, hf, hshape⟩ := get_or_create_db_shape _ _ _ _ hres
      exact ⟨f, hf, hshape⟩
  have hphone1 : get_user_by_phone (update_user_db db u.id data)
      data.phone_number = some (update_user u data) := by
    unfold update_user_db
    rw [get_user_by_phone_map db data.phone_number _ (fun a => by
      by_cases h : a.id = u.id <;> simp [update_user, h])]
    rw [hu]
    simp
  have hphone2 : get_user_by_phone
      (register_user env db sessions data fresh session_id plane_auth).db
      data.phone_number = some (f (update_user u data)) := by
    rw [hdb2, get_user_by_phone_map _ _ f (fun a => (hf a).2.1), hphone1]
    rfl
  refine ⟨hmsg, ?_, ?_, f (update_user u data), hphone2, ?_, ?_, ?_, ?_⟩
  · rw [huid]
    simp [update_user]
  · rw [hdb2]
    simp [update_user_db]
  · rw [(hf (update_user u data)).1]
    simp [update_user]
  · rw [(hf (update_user u data)).2.2.1]
    simp [update_user]
  · rw [(hf (update_user u data)).2.2.2.1]
    simp [update_user]
  · rw [(hf (update_user u data)).2.2.2.2]
    simp [update_user]

/-- Witness for C8: re-registering Ada's phone number (new last name
"Byron") with the Plane backend down answers "Login successful", keeps one
user, and the row now shows the updated profile. -/
theorem C8_witness :
    (register_user downPlaneEnv [adaUser] [] adaRequest 99 "sess-2"
      (.error "down")).message = "Login successful" ∧
    (register_user downPlaneEnv [adaUser] [] adaRequest 99 "sess-2"
      (.error "down")).user_id = adaUser.id ∧
    (register_user downPlaneEnv [adaUser] [] adaRequest 99 "sess-2"
      (.error "down")).db.length = [adaUser].length ∧
    ∃ v, get_user_by_phone
        (register_user downPlaneEnv [adaUser] [] adaRequest 99 "sess-2"
          (.error "down")).db adaRequest.phone_number = some v ∧
      v.id = adaUser.id ∧ v.first_name = adaRequest.first_name ∧
      v.last_name = adaRequest.last_name.getD "" ∧
      v.email = adaRequest.email :=
  C8_reregister_updates_in_place downPlaneEnv [adaUser] [] adaRequest 99
    "sess-2" (.error "down") adaUser (by decide)

/-- C9 is violated as stated: destroying an absent session identifier is an
error — the endpoint's session-authentication dependency raises 401 before
the guarded deletion step ever runs. -/
theorem C9_destroy_absent_session_errors :
    destroy_session [] [] (some "absent-session") = .error 401 := rfl

/-- C9 (amended): destroying an existing session removes the mapping, so a
subsequent session resolve — and a repeated destroy — gets 401; destroying
an absent or already-destroyed session identifier is rejected with 401 by
the endpoint's authentication guard rather than succeeding idempotently
(only the deletion step inside the handler is guarded against absence). -/
theorem C9_destroy_session_removes_mapping (sessions : SessionStore)
    (db : List User) (sid : String) (uid : Nat) (u : User)
    (hsid : sid.isEmpty = false)
    (hs : sessions_lookup sessions sid = some uid)
    (hu : get_user_by_id db uid = some u) :
    destroy_session sessions db (some sid) =
      .ok (sessions.filter (fun p => p.1 ≠ sid)) ∧
    get_current_user_from_session (sessions.filter (fun p => p.1 ≠ sid)) db
      (some sid) = .error 401 ∧
    destroy_session (sessions.filter (fun p => p.1 ≠ sid)) db (some sid) =
      .error 401 := by
  have hgone : sessions_lookup (sessions.filter (fun p => p.1 ≠ sid)) sid =
      none := by
    unfold sessions_lookup
    have hnone : (sessions.filter (fun p => p.1 ≠ sid)).find?
        (fun p => p.1 == sid) = none := by
      rw [List.find?_eq_none]
      intro x hx
      have hmem := List.mem_filter.mp hx
      simp at hmem ⊢
      exact hmem.2
    rw [hnone]
    rfl
  simp only [ne_eq, decide_not] at hgone
  refine ⟨?_, ?_, ?_⟩
  · simp [destroy_session, get_current_user_from_session, hsid, hs, hu]
  · simp [get_current_user_from_session, hsid, hgone]
  · simp [destroy_session, get_current_user_from_session, hsid, hgone]

/-- Witness for C9 (amended): destroying Ada's live session empties the
registry; resolving or destroying it again is rejected with 401. -/
theorem C9_witness :
    destroy_session [("sess-1", 1)] [adaUser] (some "sess-1") =
      .ok ([("sess-1", 1)].filter (fun p => p.1 ≠ "sess-1")) ∧
    get_current_user_from_session
      ([("sess-1", 1)].filter (fun p => p.1 ≠ "sess-1")) [adaUser]
      (some "sess-1") = .error 401 ∧
    destroy_session ([("sess-1", 1)].filter (fun p => p.1 ≠ "sess-1"))
      [adaUser] (some "sess-1") = .error 401 :=
  C9_destroy_session_removes_mapping [("sess-1", 1)] [adaUser] "sess-1" 1
    adaUser (by decide) (by decide) (by decide)

end Kriya
